import Mathlib

/-!
Verification of the Gitpodflix catalog service: the search / suggestion
query layer (modelled from the specification, since only its tests ship in
the repository) and the YouTube metadata service
(`backend/catalog/src/services/youtubeService.ts`,
`frontend/src/services/youtubeService.js`), translated as a shallow
embedding.  Machine integers are `Nat`/`Int`, decimal ratings are `Rat`,
fallible external calls are `Except` values passed in as parameters.
-/

namespace GitpodFlix

/-! ## Character-list helpers (substring, trim, case folding, digits) -/

/-- Boolean test that `needle` occurs at the head of `hay`. -/
def listStartsWith : List Char → List Char → Bool
  | [], _ => true
  | _ :: _, [] => false
  | a :: as, b :: bs => a == b && listStartsWith as bs

/-- Boolean test that `needle` occurs contiguously somewhere in `hay`. -/
def listContainsSeq (needle : List Char) : List Char → Bool
  | [] => listStartsWith needle []
  | b :: bs => listStartsWith needle (b :: bs) || listContainsSeq needle bs

/-- Case-insensitive substring test, the shape of SQL `ILIKE come-what-may`
wildcarded on both sides. -/
def containsCI (needle hay : String) : Bool :=
  listContainsSeq (needle.toList.map Char.toLower) (hay.toList.map Char.toLower)

/-- Whitespace trimming on both ends, the embedding of JavaScript
`String.prototype.trim`. -/
def strTrim (s : String) : String :=
  String.mk (((s.toList.dropWhile Char.isWhitespace).reverse.dropWhile
    Char.isWhitespace).reverse)

/-- Numeric value of a list of decimal digit characters, most significant
first (the value `parseInt` assigns to a digit string). -/
def digitsVal (l : List Char) : Nat :=
  l.foldl (fun a c => a * 10 + (c.toNat - 48)) 0

/-- Boolean test that every character is a decimal digit. -/
def allDigits (l : List Char) : Bool := l.all Char.isDigit

/-- Strict decimal-digit parse of a string to `Nat`; `none` unless the
string is nonempty and all digits. -/
def parseNatStr (s : String) : Option Nat :=
  if !s.toList.isEmpty && allDigits s.toList then some (digitsVal s.toList) else none

/-- Integer parse: an optional leading minus sign followed by digits. -/
def parseIntStr (s : String) : Option Int :=
  match s.toList with
  | '-' :: rest =>
    if !rest.isEmpty && allDigits rest then some (-(digitsVal rest : Int)) else none
  | l => if !l.isEmpty && allDigits l then some ((digitsVal l : Int)) else none

/-- Split a character list at its first dot, if any. -/
def breakAtDot : List Char → List Char × Option (List Char)
  | [] => ([], none)
  | '.' :: rest => ([], some rest)
  | c :: rest =>
    let p := breakAtDot rest
    (c :: p.1, p.2)

/-- Decimal-number parse to `Rat` (`"9.5"`, `"-1.25"`, `"8"`); `none` on
anything else.  Used for the lenient range-bound parsing policy. -/
def parseRatStr (s : String) : Option Rat :=
  let p := breakAtDot s.toList
  match p.2 with
  | none => (parseIntStr s).map (fun i => (i : Rat))
  | some frac =>
    if !frac.isEmpty && allDigits frac then
      (parseIntStr (String.mk p.1)).map (fun i =>
        let f : Rat := (digitsVal frac : Rat) / ((10 : Rat) ^ frac.length)
        if s.toList.headD ' ' == '-' then (i : Rat) - f else (i : Rat) + f)
    else none

/-- Split a character list on commas (JavaScript `split(',')`). -/
def splitComma : List Char → List (List Char)
  | [] => [[]]
  | ',' :: rest => [] :: splitComma rest
  | c :: rest =>
    match splitComma rest with
    | [] => [[c]]
    | a :: as => (c :: a) :: as

/-- Total lexicographic comparison of character lists by code point. -/
def charsLE : List Char → List Char → Bool
  | [], _ => true
  | _ :: _, [] => false
  | a :: as, b :: bs => a.toNat < b.toNat || (a.toNat == b.toNat && charsLE as bs)

/-- Total lexicographic comparison of strings by code point. -/
def strLE (a b : String) : Bool := charsLE a.toList b.toList

/-! ## Data model -/

/-- Modelled from the spec: `MovieRecord` (§3) — the read-only movie row
held by the external relational store. -/
structure MovieRecord where
  id : Nat
  title : String
  genres : List String
  releaseYear : Int
  rating : Rat
  durationMinutes : Nat
  director : String
  cast : List String
deriving DecidableEq, Repr

/-- Modelled from the spec: normalized `SearchCriteria` (§3, §4.1) — each
field independently optional, `genres = []` meaning absent, pagination
already defaulted and clamped. -/
structure SearchCriteria where
  text : Option String
  genres : List String
  yearMin : Option Int
  yearMax : Option Int
  ratingMin : Option Rat
  ratingMax : Option Rat
  durationMin : Option Nat
  durationMax : Option Nat
  limit : Nat
  offset : Nat
deriving DecidableEq, Repr

/-- Modelled from the spec: the raw, loosely-typed query parameters of
`GET /search` (§6) as delivered by the HTTP layer, every one optional. -/
structure RawSearchRequest where
  q : Option String := none
  genres : Option String := none
  yearMin : Option String := none
  yearMax : Option String := none
  ratingMin : Option String := none
  ratingMax : Option String := none
  durationMin : Option String := none
  durationMax : Option String := none
  limit : Option String := none
  offset : Option String := none
deriving DecidableEq, Repr

/-- Modelled from the spec: pagination defaults
`defaultLimit = 20`, `maxLimit = 100` (§4.1, §9). -/
def defaultLimit : Nat := 20

/-- Modelled from the spec: maximum page size cap (§4.1, §9). -/
def maxLimit : Nat := 100

/-- Modelled from the spec: Filter Predicate Builder (§4.1) — trims the
text, discards empty genre entries, parses each range bound leniently
(unparsable bound becomes absent), defaults and clamps pagination.  The
implementation of the `/search` route is absent from the sources (only its
tests are present), so this is reconstructed from the spec. -/
def buildCriteria (r : RawSearchRequest) : SearchCriteria where
  text :=
    match r.q with
    | none => none
    | some s => let t := strTrim s; if t = "" then none else some t
  genres :=
    match r.genres with
    | none => []
    | some s =>
      (((splitComma s.toList).map (fun l => strTrim (String.mk l))).filter
        (fun g => g ≠ ""))
  yearMin := r.yearMin.bind parseIntStr
  yearMax := r.yearMax.bind parseIntStr
  ratingMin := r.ratingMin.bind parseRatStr
  ratingMax := r.ratingMax.bind parseRatStr
  durationMin := r.durationMin.bind parseNatStr
  durationMax := r.durationMax.bind parseNatStr
  limit :=
    match r.limit.bind parseIntStr with
    | none => defaultLimit
    | some n => if n < 0 then defaultLimit else min n.toNat maxLimit
  offset :=
    match r.offset.bind parseIntStr with
    | none => 0
    | some n => if n < 0 then 0 else n.toNat

/-- Test an optional criterion: absent contributes no condition. -/
def optCheck {α : Type} (o : Option α) (p : α → Bool) : Bool :=
  match o with
  | none => true
  | some v => p v

/-- Modelled from the spec: the text predicate (§4.2) — case-insensitive
substring of title OR director OR any cast member OR any genre tag. -/
def textMatch (t : String) (m : MovieRecord) : Bool :=
  containsCI t m.title || containsCI t m.director ||
    m.cast.any (fun c => containsCI t c) || m.genres.any (fun g => containsCI t g)

/-- Modelled from the spec: the composed predicate (§4.2) — every active
criterion must hold (logical AND), genre sets intersect (OR within the
field), range bounds inclusive and one-sided when only one is present. -/
def matchesCriteria (c : SearchCriteria) (m : MovieRecord) : Bool :=
  optCheck c.text (fun t => textMatch t m) &&
    (c.genres.isEmpty || m.genres.any (fun g => c.genres.contains g)) &&
    optCheck c.yearMin (fun y => decide (y ≤ m.releaseYear)) &&
    optCheck c.yearMax (fun y => decide (m.releaseYear ≤ y)) &&
    optCheck c.ratingMin (fun v => decide (v ≤ m.rating)) &&
    optCheck c.ratingMax (fun v => decide (m.rating ≤ v)) &&
    optCheck c.durationMin (fun d => decide (d ≤ m.durationMinutes)) &&
    optCheck c.durationMax (fun d => decide (m.durationMinutes ≤ d))

/-- Modelled from the spec: the relevance order (§4.3) — `a` may come
before `b` iff `a`'s rating is higher, or the ratings are equal and `a`'s
identifier is not larger (rating descending, identifier ascending). -/
def rankLE (a b : MovieRecord) : Prop :=
  b.rating < a.rating ∨ (a.rating = b.rating ∧ a.id ≤ b.id)

instance : DecidableRel rankLE := fun a b =>
  inferInstanceAs (Decidable (b.rating < a.rating ∨ (a.rating = b.rating ∧ a.id ≤ b.id)))

instance : IsTotal MovieRecord rankLE where
  total a b := by
    rcases lt_trichotomy a.rating b.rating with h | h | h
    · exact Or.inr (Or.inl h)
    · rcases Nat.le_total a.id b.id with hi | hi
      · exact Or.inl (Or.inr ⟨h, hi⟩)
      · exact Or.inr (Or.inr ⟨h.symm, hi⟩)
    · exact Or.inl (Or.inl h)

instance : IsTrans MovieRecord rankLE where
  trans a b c hab hbc := by
    rcases hab with h1 | ⟨e1, i1⟩
    · rcases hbc with h2 | ⟨e2, _⟩
      · exact Or.inl (h2.trans h1)
      · exact Or.inl (e2 ▸ h1)
    · rcases hbc with h2 | ⟨e2, i2⟩
      · exact Or.inl (e1 ▸ h2)
      · exact Or.inr ⟨e1.trans e2, i1.trans i2⟩

/-- Modelled from the spec: the full, unbounded, ranked result sequence for
given criteria over a given store snapshot (filter then sort, §4.2–§4.3). -/
def fullResults (c : SearchCriteria) (db : List MovieRecord) : List MovieRecord :=
  List.insertionSort rankLE (db.filter (matchesCriteria c))

/-- Modelled from the spec: one page of the ranked results at an arbitrary
offset, `limit` taken from the criteria. -/
def pageAt (c : SearchCriteria) (db : List MovieRecord) (off : Nat) : List MovieRecord :=
  ((fullResults c db).drop off).take c.limit

/-- Modelled from the spec: the count query — same predicate set, no
ordering, no bounds (§4.2). -/
def countQuery (c : SearchCriteria) (db : List MovieRecord) : Nat :=
  (db.filter (matchesCriteria c)).length

/-- Pagination metadata of a search response (§3). -/
structure PaginationMeta where
  total : Nat
  limit : Nat
  offset : Nat
  hasMore : Bool
deriving DecidableEq, Repr

/-- A search response: the page of records plus pagination metadata. -/
structure SearchResponse where
  results : List MovieRecord
  pagination : PaginationMeta
deriving DecidableEq, Repr

/-- Modelled from the spec: the search operation (§4.2–§4.3, §6) — bounded
result query at the requested offset, a count query with the identical
predicates for `total`, and `hasMore` true iff `offset + limit < total`. -/
def searchOp (c : SearchCriteria) (db : List MovieRecord) : SearchResponse where
  results := pageAt c db c.offset
  pagination :=
    { total := countQuery c db
      limit := c.limit
      offset := c.offset
      hasMore := decide (c.offset + c.limit < countQuery c db) }

/-! ## Suggestion engine -/

/-- Modelled from the spec: a raw suggestion row as delivered by the store
driver, with `frequency` still text (a SQL count arrives as text). -/
structure SuggestionRow where
  suggestion : String
  type : String
  frequency : String
deriving DecidableEq, Repr

/-- A ranked, typed suggestion candidate with numeric frequency (§3). -/
structure Suggestion where
  text : String
  type : String
  frequency : Nat
deriving DecidableEq, Repr

/-- Modelled from the spec: coercion of a store row into a suggestion,
parsing the textual frequency to its numeric base (§4.4). -/
def coerceRow (r : SuggestionRow) : Suggestion :=
  { text := r.suggestion, type := r.type, frequency := (parseNatStr r.frequency).getD 0 }

/-- Modelled from the spec: the suggestion order (§4.4) — frequency
descending, ties broken by the candidate text. -/
def suggLE (a b : Suggestion) : Prop :=
  b.frequency < a.frequency ∨ (a.frequency = b.frequency ∧ strLE a.text b.text = true)

instance : DecidableRel suggLE := fun a b =>
  inferInstanceAs
    (Decidable (b.frequency < a.frequency ∨ (a.frequency = b.frequency ∧ strLE a.text b.text = true)))

/-- Modelled from the spec: rank the rows returned by the store —
numeric coercion then frequency-descending, text-tie-broken sort (§4.4). -/
def rankSuggestions (rows : List SuggestionRow) : List Suggestion :=
  List.insertionSort suggLE (rows.map coerceRow)

/-- Modelled from the spec: minimum trigger length for suggestions (§4.4). -/
def suggestionMinLength : Nat := 2

/-! ## HTTP surface -/

/-- The JSON body of a catalog API response (§6): search payload,
suggestion list, or the uniform error object. -/
inductive ResponseBody where
  | searchBody : SearchResponse → ResponseBody
  | suggestionsBody : List Suggestion → ResponseBody
  | errorBody : String → ResponseBody
deriving DecidableEq, Repr

/-- An HTTP response: status code plus body. -/
structure HttpResponse where
  status : Nat
  body : ResponseBody
deriving DecidableEq, Repr

/-- Modelled from the spec: `GET /search` (§6, §7) — on a store failure the
uniform 500 with the generic error object, otherwise 200 with results and
pagination built from the normalized criteria. -/
def searchEndpoint (r : RawSearchRequest) (store : Except String (List MovieRecord)) :
    HttpResponse :=
  match store with
  | Except.error _ => { status := 500, body := ResponseBody.errorBody "Internal server error" }
  | Except.ok db => { status := 200, body := ResponseBody.searchBody (searchOp (buildCriteria r) db) }

/-- Modelled from the spec: `GET /suggestions` (§4.4, §6, §7) — a trimmed
prefix shorter than 2 characters short-circuits to an empty list without
touching the store; otherwise the store is queried, a failure becoming the
uniform 500.  The returned flag records whether the store was queried. -/
def suggestionsEndpoint (q : Option String) (store : Except String (List SuggestionRow)) :
    HttpResponse × Bool :=
  let t := strTrim (q.getD "")
  if t.length < suggestionMinLength then
    ({ status := 200, body := ResponseBody.suggestionsBody [] }, false)
  else
    match store with
    | Except.error _ =>
      ({ status := 500, body := ResponseBody.errorBody "Internal server error" }, true)
    | Except.ok rows =>
      ({ status := 200, body := ResponseBody.suggestionsBody (rankSuggestions rows) }, true)

/-! ## YouTube metadata service
(`backend/catalog/src/services/youtubeService.ts` and its twin
`frontend/src/services/youtubeService.js`).  The HTTP fetch is a
parameter of type `Except String YouTubeApiResponse`: `Except.error`
is a thrown/rejected request, `Except.ok` a parsed JSON payload. -/

/-- The three thumbnail URLs of a video. -/
structure Thumbnails where
  thumbDefault : String
  thumbMedium : String
  thumbHigh : String
deriving DecidableEq, Repr

/-- The `snippet` part of a YouTube API item. -/
structure ApiSnippet where
  title : String
  description : String
  publishedAt : String
  channelTitle : String
  thumbnails : Thumbnails
deriving DecidableEq, Repr

/-- The `contentDetails` part of a YouTube API item. -/
structure ApiContentDetails where
  duration : String
deriving DecidableEq, Repr

/-- The `statistics` part of a YouTube API item; both counters optional. -/
structure ApiStatistics where
  viewCount : Option String
  likeCount : Option String
deriving DecidableEq, Repr

/-- One item of the `YouTubeApiResponse` payload. -/
structure ApiItem where
  id : String
  snippet : ApiSnippet
  contentDetails : ApiContentDetails
  statistics : ApiStatistics
deriving DecidableEq, Repr

/-- The YouTube API JSON payload: its list of items (`items` absent in the
JSON is the empty list). -/
structure YouTubeApiResponse where
  items : List ApiItem
deriving DecidableEq, Repr

/-- The video details bundle produced by the service
(`YouTubeVideoDetails`). -/
structure YouTubeVideoDetails where
  id : String
  title : String
  description : String
  duration : Nat
  publishedAt : String
  channelTitle : String
  viewCount : Nat
  likeCount : Nat
  thumbnails : Thumbnails
deriving DecidableEq, Repr

/-- Embedding of `isConfigured`: JavaScript `!!apiKey` — an empty key (the default when
the environment variable is unset) is unconfigured. -/
def isConfigured (apiKey : String) : Bool := apiKey != ""

/-- Suffix of a character list after its first occurrence of `"PT"`, or
`none`: where the unanchored regex `PT(?:(\d+)H)?(?:(\d+)M)?(?:(\d+)S)?`
starts matching, failing only when no `"PT"` occurs. -/
def afterPT : List Char → Option (List Char)
  | 'P' :: 'T' :: rest => some rest
  | _ :: rest => afterPT rest
  | [] => none

/-- Greedy split of a character list into its leading digits and the rest. -/
def takeDigits (l : List Char) : List Char × List Char :=
  (l.takeWhile Char.isDigit, l.dropWhile Char.isDigit)

/-- One optional regex group `(?:(\d+)X)?`: consume digits followed by the
marker `x` and return their value, else consume nothing and yield 0. -/
def parseGroup (x : Char) (l : List Char) : Nat × List Char :=
  let p := takeDigits l
  match p.2 with
  | c :: rest => if c == x && !p.1.isEmpty then (digitsVal p.1, rest) else (0, l)
  | [] => (0, l)

/-- Sum of the three optional duration groups starting right after the
matched `"PT"`: `hours * 3600 + minutes * 60 + seconds`. -/
def sumGroups (l : List Char) : Nat :=
  let h := parseGroup 'H' l
  let m := parseGroup 'M' h.2
  let sec := parseGroup 'S' m.2
  h.1 * 3600 + m.1 * 60 + sec.1

/-- Embedding of `parseYouTubeDuration` (both copies are the same code).  The argument
is `Option String`: `none` stands for a JavaScript value that is not a
string (`typeof duration !== 'string'`), and the falsiness test
`!duration` on a string is emptiness.  Empty string and strings without
any `"PT"` occurrence (the regex fails) fall back to 180; otherwise the
three optional groups are summed, a missing group counting 0. -/
def parseYouTubeDuration (duration : Option String) : Nat :=
  match duration with
  | none => 180
  | some s =>
    if s.toList.isEmpty then 180
    else
      match afterPT s.toList with
      | none => 180
      | some rest => sumGroups rest

/-- Embedding of `getFallbackVideoDetails`: the fixed bundle used whenever the API is
unreachable or unconfigured; `now` is the embedding of
`new Date().toISOString()`. -/
def getFallbackVideoDetails (videoId : String) (now : String) : YouTubeVideoDetails where
  id := videoId
  title := "Video Title Unavailable"
  description := "Video description unavailable - YouTube API not configured"
  duration := 180
  publishedAt := now
  channelTitle := "Unknown Channel"
  viewCount := 0
  likeCount := 0
  thumbnails :=
    { thumbDefault := "https://img.youtube.com/vi/" ++ videoId ++ "/default.jpg"
      thumbMedium := "https://img.youtube.com/vi/" ++ videoId ++ "/mqdefault.jpg"
      thumbHigh := "https://img.youtube.com/vi/" ++ videoId ++ "/hqdefault.jpg" }

/-- Conversion of one API item into the details bundle, as written inline
in `getVideoDetails` (the `id` field is the requested `videoId`). -/
def detailsOfItem (videoId : String) (video : ApiItem) : YouTubeVideoDetails where
  id := videoId
  title := video.snippet.title
  description := video.snippet.description
  duration := parseYouTubeDuration (some video.contentDetails.duration)
  publishedAt := video.snippet.publishedAt
  channelTitle := video.snippet.channelTitle
  viewCount := (video.statistics.viewCount.bind parseNatStr).getD 0
  likeCount := (video.statistics.likeCount.bind parseNatStr).getD 0
  thumbnails := video.snippet.thumbnails

/-- Conversion of one API item as written inline in `getBatchVideoDetails`
(there the `id` field is the item's own id). -/
def detailsOfBatchItem (video : ApiItem) : YouTubeVideoDetails :=
  detailsOfItem video.id video

/-- Embedding of `getVideoDetails`: unconfigured key, a failed fetch, and an empty
`items` list all fall back; otherwise the first item is converted. -/
def getVideoDetails (apiKey : String) (fetch : Except String YouTubeApiResponse)
    (videoId : String) (now : String) : YouTubeVideoDetails :=
  if !isConfigured apiKey then getFallbackVideoDetails videoId now
  else
    match fetch with
    | Except.error _ => getFallbackVideoDetails videoId now
    | Except.ok resp =>
      match resp.items with
      | [] => getFallbackVideoDetails videoId now
      | video :: _ => detailsOfItem videoId video

/-- Embedding of `getVideoDuration`: unconfigured key, failed fetch and empty `items`
yield the default 180; otherwise the first item's duration is parsed. -/
def getVideoDuration (apiKey : String) (fetch : Except String YouTubeApiResponse)
    (videoId : String) : Nat :=
  if !isConfigured apiKey then 180
  else
    match fetch with
    | Except.error _ => 180
    | Except.ok resp =>
      match resp.items with
      | [] => 180
      | video :: _ => parseYouTubeDuration (some video.contentDetails.duration)

/-- The batch loop's slicing: successive chunks of 50 ids
(`for (let i = 0; i < videoIds.length; i += batchSize)`). -/
def chunks50 {α : Type} : List α → List (List α)
  | [] => []
  | a :: rest => (a :: rest).take 50 :: chunks50 ((a :: rest).drop 50)
termination_by l => l.length
decreasing_by
  simp only [List.length_drop, List.length_cons]
  omega

/-- The batch loop body: one fetch per chunk, items converted and
concatenated in order; the first rejected fetch aborts the loop
(the `try` block rethrows into the surrounding `catch`). -/
def runBatches (fetch : List String → Except String YouTubeApiResponse) :
    List (List String) → Except String (List YouTubeVideoDetails)
  | [] => Except.ok []
  | c :: rest =>
    match fetch c with
    | Except.error e => Except.error e
    | Except.ok resp =>
      match runBatches fetch rest with
      | Except.error e => Except.error e
      | Except.ok tail => Except.ok (resp.items.map detailsOfBatchItem ++ tail)

/-- Embedding of `getBatchVideoDetails`: `none` models a non-array (`!videoIds`);
null/empty input yields `[]`; an unconfigured key maps every id to the
fallback bundle; otherwise the 50-wide batch loop runs, any thrown fetch
error collapsing the whole call to the per-id fallback list. -/
def getBatchVideoDetails (apiKey : String)
    (fetch : List String → Except String YouTubeApiResponse)
    (videoIds : Option (List String)) (now : String) : List YouTubeVideoDetails :=
  match videoIds with
  | none => []
  | some ids =>
    if ids.isEmpty then []
    else if !isConfigured apiKey then ids.map (fun i => getFallbackVideoDetails i now)
    else
      match runBatches fetch (chunks50 ids) with
      | Except.ok results => results
      | Except.error _ => ids.map (fun i => getFallbackVideoDetails i now)

instance : IsTotal Suggestion suggLE where
  total a b := by
    have key : ∀ x y : List Char, charsLE x y = true ∨ charsLE y x = true := by
      intro x
      induction x with
      | nil => intro y; exact Or.inl rfl
      | cons c cs ih =>
        intro y
        cases y with
        | nil => exact Or.inr rfl
        | cons d ds =>
          rcases Nat.lt_trichotomy c.toNat d.toNat with h | h | h
          · exact Or.inl (by simp [charsLE, h])
          · rcases ih ds with h2 | h2
            · exact Or.inl (by simp [charsLE, h, h2])
            · exact Or.inr (by simp [charsLE, h, h2])
          · exact Or.inr (by simp [charsLE, h])
    rcases Nat.lt_trichotomy a.frequency b.frequency with h | h | h
    · exact Or.inr (Or.inl h)
    · rcases key a.text.toList b.text.toList with h2 | h2
      · exact Or.inl (Or.inr ⟨h, h2⟩)
      · exact Or.inr (Or.inr ⟨h.symm, h2⟩)
    · exact Or.inl (Or.inl h)

instance : IsTrans Suggestion suggLE where
  trans a b c hab hbc := by
    have key : ∀ x y z : List Char, charsLE x y = true → charsLE y z = true →
        charsLE x z = true := by
      intro x
      induction x with
      | nil => intro y z _ _; rfl
      | cons u us ih =>
        intro y z hxy hyz
        cases y with
        | nil => simp [charsLE] at hxy
        | cons v vs =>
          cases z with
          | nil => simp [charsLE] at hyz
          | cons w ws =>
            simp only [charsLE, Bool.or_eq_true, Bool.and_eq_true, decide_eq_true_eq,
              beq_iff_eq] at hxy hyz ⊢
            rcases hxy with h1 | ⟨h1, h1r⟩
            · rcases hyz with h2 | ⟨h2, _⟩
              · exact Or.inl (h1.trans h2)
              · exact Or.inl (h2 ▸ h1)
            · rcases hyz with h2 | ⟨h2, h2r⟩
              · exact Or.inl (h1 ▸ h2)
              · exact Or.inr ⟨h1.trans h2, ih vs ws h1r h2r⟩
    rcases hab with h1 | ⟨e1, t1⟩
    · rcases hbc with h2 | ⟨e2, _⟩
      · exact Or.inl (h2.trans h1)
      · exact Or.inl (e2 ▸ h1)
    · rcases hbc with h2 | ⟨e2, t2⟩
      · exact Or.inl (e1 ▸ h2)
      · exact Or.inr ⟨e1.trans e2, key _ _ _ t1 t2⟩

/-! ## Helpers for stating the duration-parse characterization -/

/-- The characters contributed by one optional regex group: empty when the
group is absent, the digits followed by the marker when present. -/
def groupChars (x : Char) : Option (List Char) → List Char
  | none => []
  | some ds => ds ++ [x]

/-- The numeric value of one optional group, an absent group counting 0. -/
def optVal : Option (List Char) → Nat
  | none => 0
  | some ds => digitsVal ds

/-- Well-formedness of one optional group: when present, a nonempty string
of decimal digits. -/
def optDigits : Option (List Char) → Prop
  | none => True
  | some ds => ds ≠ [] ∧ allDigits ds = true

instance (o : Option (List Char)) : Decidable (optDigits o) :=
  match o with
  | none => isTrue trivial
  | some ds => inferInstanceAs (Decidable (ds ≠ [] ∧ allDigits ds = true))

/-! ## Concrete fixtures used by the witness theorems -/

/-- The rational 19/2, the rating 9.5 of the spec scenario, given in
normal form so that kernel evaluation never normalizes a fraction. -/
def r95 : Rat := ⟨19, 2, by decide, by decide⟩

/-- The rational 8, the rating 8.0 of the spec scenario. -/
def r80 : Rat := ⟨8, 1, by decide, by decide⟩

/-- Spec scenario record 1: id 1, title "Movie A", rating 9.5. -/
def mA : MovieRecord where
  id := 1
  title := "Movie A"
  genres := ["Drama"]
  releaseYear := 2000
  rating := r95
  durationMinutes := 100
  director := "Ann"
  cast := ["Alice"]

/-- Spec scenario record 2: id 2, title "Movie B", rating 8.0. -/
def mB : MovieRecord where
  id := 2
  title := "Movie B"
  genres := ["Action"]
  releaseYear := 2001
  rating := r80
  durationMinutes := 90
  director := "Bob"
  cast := ["Bea"]

/-- The spec-scenario store: the two records, deliberately out of order. -/
def dbW : List MovieRecord := [mB, mA]

/-- Criteria of a `GET /search` with no parameters at all. -/
def cW : SearchCriteria := buildCriteria {}

/-! ## Shared helper lemmas -/

/-- Concatenating the `take k` chunks of `l` at offsets `0, k, 2k, …`
up to `n` chunks yields the first `n * k` elements of `l`. -/
theorem join_take_chunks {α : Type} (l : List α) (k : Nat) :
    ∀ n : Nat, ((List.range n).map (fun i => ((l.drop (i * k)).take k))).flatten = l.take (n * k) := by
  intro n
  induction n with
  | zero => simp
  | succ m ih =>
    rw [List.range_succ, List.map_append, List.flatten_append, ih]
    simp [Nat.succ_mul, List.take_add]

/-! ## Claim theorems -/

/-- C1: the full result sequence of a search is sorted by rating descending
with identifier ascending as tie-break; every response page is a
`take limit ∘ drop offset` slice of that fixed sequence; and concatenating
the pages at offsets `0, limit, 2·limit, …` over an unchanged store
reproduces the full result sequence with no duplicates and no gaps. -/
theorem search_ordering_and_pagination (c : SearchCriteria) (db : List MovieRecord) (n : Nat)
    (hn : (fullResults c db).length ≤ n * c.limit) :
    List.Sorted rankLE (fullResults c db) ∧
    (∀ off, (searchOp { c with offset := off } db).results = pageAt c db off) ∧
    ((List.range n).map (fun i => pageAt c db (i * c.limit))).flatten = fullResults c db := by
  refine ⟨List.sorted_insertionSort rankLE _, fun off => rfl, ?_⟩
  simp only [pageAt]
  rw [join_take_chunks (fullResults c db) c.limit n]
  exact List.take_of_length_le hn

/-- Witness for C1 at the spec scenario: two records with ratings 9.5 and
8.0, no filters, one page of the default size. -/
theorem search_ordering_and_pagination_witness :
    (fullResults cW dbW).length ≤ 1 * cW.limit ∧
    (List.Sorted rankLE (fullResults cW dbW) ∧
      (searchOp { cW with offset := 0 } dbW).results = pageAt cW dbW 0 ∧
      ((List.range 1).map (fun i => pageAt cW dbW (i * cW.limit))).flatten = fullResults cW dbW) := by
  have h := search_ordering_and_pagination cW dbW 1 (by decide)
  exact ⟨by decide, h.1, h.2.1 0, h.2.2⟩

/-- C2: the `total` reported by a search response equals the count query
run with the identical predicate set, and the returned page never holds
more records than `total`. -/
theorem search_total_consistency (c : SearchCriteria) (db : List MovieRecord) :
    (searchOp c db).pagination.total = countQuery c db ∧
    (searchOp c db).results.length ≤ (searchOp c db).pagination.total := by
  refine ⟨rfl, ?_⟩
  show (pageAt c db c.offset).length ≤ countQuery c db
  simp only [pageAt, countQuery, fullResults, List.length_take, List.length_drop,
    List.length_insertionSort]
  omega

/-- C3: the `hasMore` flag of a search response is true exactly when
`offset + limit < total`. -/
theorem search_hasMore_iff (c : SearchCriteria) (db : List MovieRecord) :
    (searchOp c db).pagination.hasMore = true ↔
      c.offset + c.limit < (searchOp c db).pagination.total := by
  simp [searchOp]

/-- C5: ranked suggestions are sorted by frequency descending with the
candidate text as tie-break, and they are exactly the store rows with each
textual frequency coerced to its numeric value (so no frequency is ever
left as text). -/
theorem suggestions_ranked_numeric (rows : List SuggestionRow) :
    List.Sorted suggLE (rankSuggestions rows) ∧
    (rankSuggestions rows).Perm (rows.map coerceRow) :=
  ⟨List.sorted_insertionSort suggLE (rows.map coerceRow),
    List.perm_insertionSort suggLE (rows.map coerceRow)⟩

/-- C4: a suggestions request whose `q` is absent, whitespace-only, or
shorter than 2 characters after trimming answers 200 with the empty list
and never queries the store (the flag is `false`). -/
theorem suggestions_short_circuit (q : Option String)
    (store : Except String (List SuggestionRow))
    (h : (strTrim (q.getD "")).length < suggestionMinLength) :
    suggestionsEndpoint q store =
      ({ status := 200, body := ResponseBody.suggestionsBody [] }, false) := by
  simp only [suggestionsEndpoint]
  rw [if_pos h]

/-- Witness for C4: an absent `q`, a whitespace-only `q`, and a one-letter
`q`, each against a store that would fail if it were ever reached. -/
theorem suggestions_short_circuit_witness :
    suggestionsEndpoint none (Except.error "store is down") =
      ({ status := 200, body := ResponseBody.suggestionsBody [] }, false) ∧
    suggestionsEndpoint (some "   ") (Except.error "store is down") =
      ({ status := 200, body := ResponseBody.suggestionsBody [] }, false) ∧
    suggestionsEndpoint (some "B") (Except.error "store is down") =
      ({ status := 200, body := ResponseBody.suggestionsBody [] }, false) :=
  ⟨suggestions_short_circuit none (Except.error "store is down") (by decide),
    suggestions_short_circuit (some "   ") (Except.error "store is down") (by decide),
    suggestions_short_circuit (some "B") (Except.error "store is down") (by decide)⟩

/-- C6: a failure reaching the storage reader makes `/search` — and
`/suggestions` whenever it consults the store at all — answer exactly
HTTP 500 with body `error: "Internal server error"`, whatever the
underlying error was. -/
theorem store_failure_uniform_500 (r : RawSearchRequest) (q : Option String)
    (e1 e2 : String) (h : suggestionMinLength ≤ (strTrim (q.getD "")).length) :
    searchEndpoint r (Except.error e1) =
      { status := 500, body := ResponseBody.errorBody "Internal server error" } ∧
    suggestionsEndpoint q (Except.error e2) =
      ({ status := 500, body := ResponseBody.errorBody "Internal server error" }, true) := by
  refine ⟨rfl, ?_⟩
  simp only [suggestionsEndpoint]
  rw [if_neg (Nat.not_lt.mpr h)]

/-- Witness for C6: two unrelated failure messages, neither of which leaks
into the uniform 500 response. -/
theorem store_failure_uniform_500_witness :
    searchEndpoint {} (Except.error "connection refused") =
      { status := 500, body := ResponseBody.errorBody "Internal server error" } ∧
    suggestionsEndpoint (some "Bat") (Except.error "query timeout") =
      ({ status := 500, body := ResponseBody.errorBody "Internal server error" }, true) :=
  store_failure_uniform_500 {} (some "Bat") "connection refused" "query timeout" (by decide)

/-- C7: a search whose text parameter trims to nothing produces exactly
the same response — results and pagination metadata alike — as the same
request with the text parameter absent. -/
theorem whitespace_query_equals_absent (r : RawSearchRequest) (s : String)
    (store : Except String (List MovieRecord)) (h : strTrim s = "") :
    searchEndpoint { r with q := some s } store = searchEndpoint { r with q := none } store := by
  have hb : buildCriteria { r with q := some s } = buildCriteria { r with q := none } := by
    simp [buildCriteria, h]
  cases store with
  | error e => rfl
  | ok db => simp [searchEndpoint, hb]

/-- Witness for C7: `q = "   "` against the two-record scenario store
gives the very same response as omitting `q`. -/
theorem whitespace_query_equals_absent_witness :
    searchEndpoint { q := some "   " } (Except.ok dbW) =
      searchEndpoint { q := none } (Except.ok dbW) :=
  whitespace_query_equals_absent {} "   " (Except.ok dbW) (by decide)

/-- C8: whenever the YouTube API key is unconfigured, or the fetch fails,
or the fetch answers with no items, `getVideoDetails` returns the
documented fallback bundle (whose duration is the fixed default 180) and
`getVideoDuration` returns 180 — no error is ever raised. -/
theorem youtube_metadata_fallback (apiKey : String)
    (fetch fetchD : Except String YouTubeApiResponse) (videoId now : String)
    (h : apiKey = "" ∨ (∃ e, fetch = Except.error e) ∨
      (∃ resp, fetch = Except.ok resp ∧ resp.items = []))
    (hD : apiKey = "" ∨ (∃ e, fetchD = Except.error e) ∨
      (∃ resp, fetchD = Except.ok resp ∧ resp.items = [])) :
    getVideoDetails apiKey fetch videoId now = getFallbackVideoDetails videoId now ∧
    (getFallbackVideoDetails videoId now).duration = 180 ∧
    getVideoDuration apiKey fetchD videoId = 180 := by
  refine ⟨?_, rfl, ?_⟩
  · rcases h with h | ⟨e, he⟩ | ⟨resp, hr, hi⟩
    · simp [getVideoDetails, isConfigured, h]
    · cases hc : isConfigured apiKey <;> simp [getVideoDetails, hc, he]
    · subst hr
      obtain ⟨items⟩ := resp
      simp only at hi
      subst hi
      cases hc : isConfigured apiKey <;> simp [getVideoDetails, hc]
  · rcases hD with h | ⟨e, he⟩ | ⟨resp, hr, hi⟩
    · simp [getVideoDuration, isConfigured, h]
    · cases hc : isConfigured apiKey <;> simp [getVideoDuration, hc, he]
    · subst hr
      obtain ⟨items⟩ := resp
      simp only at hi
      subst hi
      cases hc : isConfigured apiKey <;> simp [getVideoDuration, hc]

/-- Witness for C8: an unconfigured key with a failed fetch for the
details call, and a configured key whose fetch finds no items for the
duration call. -/
theorem youtube_metadata_fallback_witness :
    getVideoDetails "" (Except.error "network unreachable") "dQw4w9WgXcQ" "2024-01-01" =
      getFallbackVideoDetails "dQw4w9WgXcQ" "2024-01-01" ∧
    (getFallbackVideoDetails "dQw4w9WgXcQ" "2024-01-01").duration = 180 ∧
    getVideoDuration "some-key" (Except.ok { items := [] }) "dQw4w9WgXcQ" = 180 :=
  youtube_metadata_fallback "" (Except.error "network unreachable")
    (Except.ok { items := [] }) "dQw4w9WgXcQ" "2024-01-01"
    (Or.inl rfl) (Or.inr (Or.inr ⟨{ items := [] }, rfl, rfl⟩))

/-- C10: `getBatchVideoDetails` yields `[]` on a null or empty id list,
and with an unconfigured key it yields exactly one fallback record per
input id, in input order, each record carrying its input id. -/
theorem batch_details_fallback (apiKey : String)
    (fetch : List String → Except String YouTubeApiResponse) (now : String) :
    getBatchVideoDetails apiKey fetch none now = [] ∧
    getBatchVideoDetails apiKey fetch (some []) now = [] ∧
    (apiKey = "" → ∀ ids : List String,
      getBatchVideoDetails apiKey fetch (some ids) now =
        ids.map (fun i => getFallbackVideoDetails i now) ∧
      (getBatchVideoDetails apiKey fetch (some ids) now).map (fun d => d.id) = ids) := by
  refine ⟨rfl, rfl, ?_⟩
  intro hk ids
  subst hk
  have hmain : getBatchVideoDetails "" fetch (some ids) now =
      ids.map (fun i => getFallbackVideoDetails i now) := by
    cases ids with
    | nil => rfl
    | cons a rest => simp [getBatchVideoDetails, isConfigured]
  refine ⟨hmain, ?_⟩
  rw [hmain, List.map_map]
  exact List.map_id ids

/-- Witness for C10: two ids with an unconfigured key map to the two
fallback bundles in order, their ids preserved. -/
theorem batch_details_fallback_witness :
    getBatchVideoDetails "" (fun _ => Except.error "network unreachable")
        (some ["idA", "idB"]) "2024-01-01" =
      [getFallbackVideoDetails "idA" "2024-01-01",
        getFallbackVideoDetails "idB" "2024-01-01"] ∧
    (getBatchVideoDetails "" (fun _ => Except.error "network unreachable")
        (some ["idA", "idB"]) "2024-01-01").map (fun d => d.id) = ["idA", "idB"] :=
  (batch_details_fallback "" (fun _ => Except.error "network unreachable") "2024-01-01").2.2
    rfl ["idA", "idB"]

/-- Greedy digit-taking stops exactly at the first non-digit: the prefix of
`ds ++ l` kept by `takeWhile Char.isDigit` is `ds` when `ds` is all digits
and `l` does not begin with a digit. -/
theorem takeWhile_digits_append (ds l : List Char) (h2 : (l.headD 'P').isDigit = false) :
    allDigits ds = true → (ds ++ l).takeWhile Char.isDigit = ds := by
  induction ds with
  | nil =>
    intro _
    cases l with
    | nil => rfl
    | cons c cs =>
      simp only [List.headD_cons] at h2
      simp [List.takeWhile_cons, h2]
  | cons d ds ih =>
    intro h1
    simp only [allDigits, List.all_cons, Bool.and_eq_true] at h1
    have hds : allDigits ds = true := h1.2
    simp [List.takeWhile_cons, h1.1, ih hds]

/-- Companion of `takeWhile_digits_append` for the dropped suffix. -/
theorem dropWhile_digits_append (ds l : List Char) (h2 : (l.headD 'P').isDigit = false) :
    allDigits ds = true → (ds ++ l).dropWhile Char.isDigit = l := by
  induction ds with
  | nil =>
    intro _
    cases l with
    | nil => rfl
    | cons c cs =>
      simp only [List.headD_cons] at h2
      simp [List.dropWhile_cons, h2]
  | cons d ds ih =>
    intro h1
    simp only [allDigits, List.all_cons, Bool.and_eq_true] at h1
    have hds : allDigits ds = true := h1.2
    simp [List.dropWhile_cons, h1.1, ih hds]

/-- The function `takeDigits` splits `ds ++ l` exactly at the junction when `ds` is all
digits and `l` does not begin with a digit. -/
theorem takeDigits_split (ds l : List Char) (h1 : allDigits ds = true)
    (h2 : (l.headD 'P').isDigit = false) : takeDigits (ds ++ l) = (ds, l) := by
  unfold takeDigits
  rw [takeWhile_digits_append ds l h2 h1, dropWhile_digits_append ds l h2 h1]

/-- A present group `(\d+)x` fires: nonempty digits followed by the marker
consume both and yield the digits' value. -/
theorem parseGroup_hit (x : Char) (ds l : List Char) (h1 : allDigits ds = true)
    (h2 : ds ≠ []) (hx : x.isDigit = false) :
    parseGroup x (ds ++ x :: l) = (digitsVal ds, l) := by
  have ht : takeDigits (ds ++ x :: l) = (ds, x :: l) :=
    takeDigits_split ds (x :: l) h1 (by simpa using hx)
  have hne : ds.isEmpty = false := by
    cases ds with
    | nil => exact absurd rfl h2
    | cons d t => rfl
  simp [parseGroup, ht, hne]

/-- An optional group fails without consuming anything when the input does
not begin with a digit. -/
theorem parseGroup_skip_head (x : Char) (l : List Char)
    (h : (l.headD 'P').isDigit = false) : parseGroup x l = (0, l) := by
  have ht : takeDigits l = ([], l) := by
    have h0 := takeDigits_split [] l rfl h
    simpa using h0
  cases l with
  | nil => rfl
  | cons c cs => simp [parseGroup, ht]

/-- An optional group fails without consuming anything when its leading
digits are followed by a different (non-digit) marker. -/
theorem parseGroup_skip_marker (x y : Char) (ds l : List Char)
    (h1 : allDigits ds = true) (hy : y.isDigit = false) (hne : (y == x) = false) :
    parseGroup x (ds ++ y :: l) = (0, ds ++ y :: l) := by
  have ht : takeDigits (ds ++ y :: l) = (ds, y :: l) :=
    takeDigits_split ds (y :: l) h1 (by simpa using hy)
  simp [parseGroup, ht, hne]

/-- The parser on a string that begins with `"PT"` is the group sum. -/
theorem parse_mk (l : List Char) :
    parseYouTubeDuration (some (String.mk ('P' :: 'T' :: l))) = sumGroups l := rfl

/-- C9: `parseYouTubeDuration` is total and never throws — a non-string
value, and any string in which the regex finds no `"PT"`, give the 180
fallback, while every matched string gives
`hours * 3600 + minutes * 60 + seconds`, a missing group counting 0 (so
the bare `"PT"` gives 0, not 180). -/
theorem parse_duration_total_spec :
    parseYouTubeDuration none = 180 ∧
    parseYouTubeDuration (some "") = 180 ∧
    (∀ s : String, afterPT s.toList = none → parseYouTubeDuration (some s) = 180) ∧
    (∀ (g1 g2 g3 : Option (List Char)) (rest : List Char),
      optDigits g1 → optDigits g2 → optDigits g3 →
      (rest.headD 'P').isDigit = false →
      parseYouTubeDuration (some (String.mk ('P' :: 'T' ::
        (groupChars 'H' g1 ++ groupChars 'M' g2 ++ groupChars 'S' g3 ++ rest)))) =
        optVal g1 * 3600 + optVal g2 * 60 + optVal g3) := by
  refine ⟨rfl, rfl, ?_, ?_⟩
  · intro s h
    simp only [parseYouTubeDuration]
    by_cases he : s.toList.isEmpty = true
    · rw [if_pos he]
    · rw [if_neg he, h]
  · intro g1 g2 g3 rest h1 h2 h3 hrest
    rw [parse_mk]
    rcases g1 with _ | ds1 <;> rcases g2 with _ | ds2 <;> rcases g3 with _ | ds3 <;>
      simp only [groupChars, optVal, List.nil_append, List.append_assoc,
        List.singleton_append, List.append_nil]
    · simp [sumGroups, parseGroup_skip_head _ rest hrest]
    · obtain ⟨hne3, hd3⟩ := h3
      simp [sumGroups, parseGroup_skip_marker 'H' 'S' ds3 rest hd3 (by decide) (by decide),
        parseGroup_skip_marker 'M' 'S' ds3 rest hd3 (by decide) (by decide),
        parseGroup_hit 'S' ds3 rest hd3 hne3 (by decide)]
    · obtain ⟨hne2, hd2⟩ := h2
      simp [sumGroups, parseGroup_skip_marker 'H' 'M' ds2 rest hd2 (by decide) (by decide),
        parseGroup_hit 'M' ds2 rest hd2 hne2 (by decide),
        parseGroup_skip_head 'S' rest hrest]
    · obtain ⟨hne2, hd2⟩ := h2
      obtain ⟨hne3, hd3⟩ := h3
      simp [sumGroups,
        parseGroup_skip_marker 'H' 'M' ds2 (ds3 ++ 'S' :: rest) hd2 (by decide) (by decide),
        parseGroup_hit 'M' ds2 (ds3 ++ 'S' :: rest) hd2 hne2 (by decide),
        parseGroup_skip_marker 'M' 'S' ds3 rest hd3 (by decide) (by decide),
        parseGroup_hit 'S' ds3 rest hd3 hne3 (by decide)]
    · obtain ⟨hne1, hd1⟩ := h1
      simp [sumGroups, parseGroup_hit 'H' ds1 rest hd1 hne1 (by decide),
        parseGroup_skip_head 'M' rest hrest, parseGroup_skip_head 'S' rest hrest]
    · obtain ⟨hne1, hd1⟩ := h1
      obtain ⟨hne3, hd3⟩ := h3
      simp [sumGroups,
        parseGroup_hit 'H' ds1 (ds3 ++ 'S' :: rest) hd1 hne1 (by decide),
        parseGroup_skip_marker 'M' 'S' ds3 rest hd3 (by decide) (by decide),
        parseGroup_hit 'S' ds3 rest hd3 hne3 (by decide)]
    · obtain ⟨hne1, hd1⟩ := h1
      obtain ⟨hne2, hd2⟩ := h2
      simp [sumGroups,
        parseGroup_hit 'H' ds1 (ds2 ++ 'M' :: rest) hd1 hne1 (by decide),
        parseGroup_hit 'M' ds2 rest hd2 hne2 (by decide),
        parseGroup_skip_head 'S' rest hrest]
    · obtain ⟨hne1, hd1⟩ := h1
      obtain ⟨hne2, hd2⟩ := h2
      obtain ⟨hne3, hd3⟩ := h3
      simp [sumGroups,
        parseGroup_hit 'H' ds1 (ds2 ++ 'M' :: (ds3 ++ 'S' :: rest)) hd1 hne1 (by decide),
        parseGroup_hit 'M' ds2 (ds3 ++ 'S' :: rest) hd2 hne2 (by decide),
        parseGroup_hit 'S' ds3 rest hd3 hne3 (by decide)]

/-- Witness for C9: `"4M13S"` has no `"PT"` and falls back to 180,
`"PT4M13S"` parses to 253 seconds, and the bare `"PT"` parses to 0. -/
theorem parse_duration_total_spec_witness :
    parseYouTubeDuration (some "4M13S") = 180 ∧
    parseYouTubeDuration (some "PT4M13S") = 253 ∧
    parseYouTubeDuration (some "PT") = 0 := by
  have h := parse_duration_total_spec
  refine ⟨h.2.2.1 "4M13S" (by decide), ?_, ?_⟩
  · have h4 := h.2.2.2 none (some ['4']) (some ['1', '3']) []
      trivial (by decide) (by decide) (by decide)
    simpa using h4
  · have h0 := h.2.2.2 none none none [] trivial trivial trivial (by decide)
    simpa using h0

end GitpodFlix
